import Mathlib

/-!
Shallow embedding of the `exzet-functions` repository (Firebase serverless
handlers gluing Cloud Storage, Firestore and the OpenAI image API) and proofs
about its job-record state machine, prompt resolution, size negotiation,
reconciliation pass and error propagation.

Sources embedded:
* `index.js` — callable generator + Firestore-triggered auto generator
  (namespace `IndexJs`);
* `functions/index.js` — size helpers, storage writer with signed URL,
  storage-triggered incoming-prompt worker (namespace `FunctionsJs`);
* `unnamed/part_003` — `checkAndFix` reconciliation pass (namespace `Part003`).

External collaborators (OpenAI client, Cloud Storage, Firestore, JSON parser)
are modelled as explicit parameters: the image API response is the optional
`b64_json` payload, blob existence and URL signing are injected functions, and
Firestore documents are records with explicit field updates.  Firestore
transactions are serialized, so duplicate claim attempts are modelled as
sequential applications of the transaction body.
-/

namespace ExzetFunctions

/-! ### JS string primitives

Explicit char-list implementations of the JavaScript string operations used by
the sources (`trim`, `startsWith`, `includes`, `endsWith`, `toLowerCase`,
`replace` of a leading prefix, extension stripping), so that all definitions
reduce by kernel evaluation. -/

/-- `pat` occurs at the start of `s` (char-list form of JS `startsWith`). -/
def listLeads : List Char → List Char → Bool
  | [], _ => true
  | _ :: _, [] => false
  | a :: as, b :: bs => a == b && listLeads as bs

/-- JS `s.startsWith(pat)`. -/
def jsStartsWith (s pat : String) : Bool :=
  listLeads pat.toList s.toList

/-- `pat` occurs somewhere inside `l`. -/
def hasSubList (pat : List Char) : List Char → Bool
  | [] => pat.isEmpty
  | c :: rest => listLeads pat (c :: rest) || hasSubList pat rest

/-- JS `s.includes(pat)`. -/
def jsIncludes (s pat : String) : Bool :=
  hasSubList pat.toList s.toList

/-- JS `s.endsWith(pat)`. -/
def jsEndsWith (s pat : String) : Bool :=
  listLeads pat.toList.reverse s.toList.reverse

/-- JS `s.trim()` (ASCII whitespace; the JS version also trims rarer Unicode
whitespace, which never appears in the sources). -/
def jsTrim (s : String) : String :=
  String.mk (((s.toList.dropWhile Char.isWhitespace).reverse.dropWhile
    Char.isWhitespace).reverse)

/-- JS `s.toLowerCase()` (ASCII). -/
def jsToLower (s : String) : String :=
  String.mk (s.toList.map Char.toLower)

/-- JS `s.replace(/^\/+|\/+$/g, "")`: strip leading and trailing slashes. -/
def trimSlashes (s : String) : String :=
  String.mk (((s.toList.dropWhile (· == '/')).reverse.dropWhile
    (· == '/')).reverse)

/-- Drop the first `n` characters of `s`. -/
def dropChars (s : String) (n : Nat) : String :=
  String.mk (s.toList.drop n)

/-- JS `s.replace(/\.[^/.]+$/, "")`: strip a trailing `.ext` whose extension is
non-empty and contains neither `.` nor `/`. -/
def stripExt (s : String) : String :=
  let cs := s.toList.reverse
  let ext := cs.takeWhile (fun c => !(c == '.') && !(c == '/'))
  match cs.drop ext.length with
  | '.' :: rest => if ext.isEmpty then s else String.mk rest.reverse
  | _ => s

/-- Numeric value of a digit string (JS unary `+` on a `\d+` match). -/
def digitsToNat (cs : List Char) : Nat :=
  cs.foldl (fun a c => 10 * a + (c.toNat - 48)) 0

/-- `Math.abs(a - b)` for JS numbers holding naturals. -/
def jsAbsSub (a b : Nat) : Nat :=
  if a ≤ b then b - a else a - b

/-! ### `index.js` — Firestore-triggered generator and callable generator -/

namespace IndexJs

/-- A `staging_products/{docId}` Firestore document, restricted to the fields
`index.js` reads or writes.  An absent string field is modelled as `""` (JS
`undefined` is falsy exactly like `""` in every use below) and an absent
numeric/timestamp field as `none` / `0` (`FieldValue.increment(1)` on an
absent field writes `1`, matching `errorCount = 0` for absent). -/
structure Doc where
  photoStatus : String := ""
  title : String := ""
  prompt : String := ""
  generatedImageUrl : String := ""
  generatedImagePath : String := ""
  errorMessage : String := ""
  errorCount : Nat := 0
  processingStartedAt : Option Nat := none
  processingCompletedAt : Option Nat := none
  lastErrorAt : Option Nat := none
deriving DecidableEq

/-- Input of `buildPrompt` (`base?.title`, `base?.prompt`). -/
structure PromptInput where
  title : String := ""
  prompt : String := ""
deriving DecidableEq

/-- `buildPrompt` (index.js:25-31): explicit prompt (trimmed) wins, else a
template over the trimmed title, else a fixed fallback. -/
def buildPrompt (base : PromptInput) : String :=
  let t := jsTrim base.title
  let custom := jsTrim base.prompt
  if custom ≠ "" then custom
  else if t ≠ "" then
    "Studio-grade product photo of " ++ t ++
      ", seamless white background, soft shadow, no clutter, no watermark"
  else
    "Studio-grade product photo of a plain item, seamless white background, soft shadow, no clutter, no watermark"

/-- The transaction body of `autoGenerateImage` (index.js:84-94): read the
current document; if `photoStatus` is not `"queued"` return `false` without
writing; otherwise write `photoStatus := "processing"` and stamp
`processingStartedAt`, and return `true`.  `t` is the server timestamp. -/
def tryClaim (doc : Doc) (t : Nat) : Bool × Doc :=
  if doc.photoStatus ≠ "queued" then (false, doc)
  else (true, { doc with photoStatus := "processing", processingStartedAt := some t })

/-- Sequential application of duplicate claim attempts (Firestore serializes
transactions on one document): each attempt reads the state left by the
previous one.  Returns the list of `tryClaim` results and the final state. -/
def runClaims (doc : Doc) : List Nat → List Bool × Doc
  | [] => ([], doc)
  | t :: ts =>
    let r := tryClaim doc t
    let rest := runClaims r.2 ts
    (r.1 :: rest.1, rest.2)

/-- The success update of `autoGenerateImage` (index.js:105-110): set
`photoStatus := "done"`, the generated URL and path, and stamp
`processingCompletedAt`.  No other field is touched. -/
def completeUpdate (doc : Doc) (url path : String) (t : Nat) : Doc :=
  { doc with
    photoStatus := "done"
    generatedImageUrl := url
    generatedImagePath := path
    processingCompletedAt := some t }

/-- The catch-block update of `autoGenerateImage` (index.js:114-119): set
`photoStatus := "error"`, store the message, increment `errorCount`, stamp
`lastErrorAt`. -/
def failUpdate (doc : Doc) (msg : String) (t : Nat) : Doc :=
  { doc with
    photoStatus := "error"
    errorMessage := msg
    errorCount := doc.errorCount + 1
    lastErrorAt := some t }

/-- Message of the `TypeError` Node raises at index.js:42-43 when the API
response carries no `data[0].b64_json` payload (`Buffer.from(undefined)`);
only its non-emptiness matters below. -/
def noPayloadErrorMsg : String :=
  "Cannot read properties of undefined (reading b64_json)"

/-- Result of `generateAndStore`. -/
structure GenStoreOut where
  url : String
deriving DecidableEq

/-- Fixed signed-URL expiry used by `generateAndStore` (index.js:49-52). -/
def generateAndStoreExpires : String := "2099-09-03"

/-- `generateAndStore` (index.js:33-55): call the image API (its response is
the optional `b64_json` payload `apiB64`), decode, save the blob and sign a
read URL (`signUrl` is the storage collaborator).  Throws when the response
has no payload. -/
def generateAndStoreE (signUrl : String → String) (apiB64 : Option String)
    (genPrompt outPath : String) : Except String GenStoreOut :=
  match apiB64 with
  | none => .error noPayloadErrorMsg
  | some _ => .ok { url := signUrl outPath }

/-- The Firestore-triggered handler `autoGenerateImage` (index.js:72-122) on a
document write: run the claim transaction at time `t1`; if it loses, return.
Otherwise generate and store, then apply the success update at `t2`; any
thrown error is caught and recorded with `failUpdate` — the handler itself
never propagates an error (`Except.error` never escapes). -/
def autoGenerateImage (signUrl : String → String) (apiB64 : Option String)
    (doc : Doc) (docId : String) (t1 t2 : Nat) : Except String Doc :=
  let claim := tryClaim doc t1
  if claim.1 then
    let genPrompt := buildPrompt { title := doc.title, prompt := doc.prompt }
    let outPath := "generated/" ++ docId ++ ".png"
    match generateAndStoreE signUrl apiB64 genPrompt outPath with
    | .ok g => .ok (completeUpdate claim.2 g.url outPath t2)
    | .error e => .ok (failUpdate claim.2 e t2)
  else .ok claim.2

/-- Result of the callable `generateProductImage`. -/
structure ManualResult where
  success : Bool
  url : String
  path : String
deriving DecidableEq

/-- The callable (manual) handler `generateProductImage` (index.js:60-65):
no try/catch, so an error thrown by `generateAndStore` propagates to the
caller.  `nowMs` is `Date.now()`. -/
def generateProductImage (signUrl : String → String) (apiB64 : Option String)
    (reqData : PromptInput) (nowMs : Nat) : Except String ManualResult :=
  let genPrompt := buildPrompt reqData
  let outPath := "generated/" ++ toString nowMs ++ ".png"
  match generateAndStoreE signUrl apiB64 genPrompt outPath with
  | .ok g => .ok { success := true, url := g.url, path := outPath }
  | .error e => .error e

end IndexJs

/-! ### `functions/index.js` — size negotiation, storage writer, incoming worker -/

namespace FunctionsJs

/-- Parse the digit/`x`/digit core of `parseSize` (the regex
`^(\d+)\s*x\s*(\d+)$` applied to the lowercased string). -/
def parseSizeChars (cs : List Char) : Option (Nat × Nat) :=
  let d1 := cs.takeWhile Char.isDigit
  if d1.isEmpty then none
  else
    match (cs.drop d1.length).dropWhile Char.isWhitespace with
    | 'x' :: r3 =>
      let r4 := r3.dropWhile Char.isWhitespace
      let d2 := r4.takeWhile Char.isDigit
      if d2.isEmpty then none
      else if (r4.drop d2.length).isEmpty then
        some (digitsToNat d1, digitsToNat d2)
      else none
    | _ => none

/-- `parseSize` (functions/index.js:22-26): match
`^(\d+)\s*x\s*(\d+)$` against the lowercased string; on failure fall back to
the default portrait size `1024x1536`; clamp each dimension to at least 1. -/
def parseSize (s : String) : Nat × Nat :=
  match parseSizeChars (jsToLower s).toList with
  | none => (1024, 1536)
  | some (a, b) => (max 1 a, max 1 b)

/-- The fixed enumerated render sides the model accepts
(functions/index.js:31). -/
def allowedSides : List Nat := [1024, 1536, 2048]

/-- The `reduce` of `squareForModel` (functions/index.js:32-34): JS `reduce`
without an initial value seeds the accumulator with the head of
`allowedSides` and folds over its tail, keeping the element strictly closer
to `side`. -/
def closestTo (side : Nat) : Nat :=
  (allowedSides.tail).foldl
    (fun acc b => if jsAbsSub b side < jsAbsSub acc side then b else acc)
    (allowedSides.headD 0)

/-- The side picked by `squareForModel` (functions/index.js:27-36):
`side = Math.max(w, h, 1024)`, then the allowed side closest to it. -/
def squareSide (w h : Nat) : Nat :=
  closestTo (max (max w h) 1024)

/-- `squareForModel`: the `"<side>x<side>"` string requested from the API. -/
def squareForModel (w h : Nat) : String :=
  toString (squareSide w h) ++ "x" ++ toString (squareSide w h)

/-- Milliseconds in a day. -/
def msPerDay : Nat := 24 * 60 * 60 * 1000

/-- Milliseconds in a (365-day) year. -/
def msPerYear : Nat := 365 * msPerDay

/-- Signed-URL expiry of `saveBufferToStorage` (functions/index.js:64-67):
`Date.now() + 7 * 24 * 60 * 60 * 1000`. -/
def saveSignedUrlExpires (nowMs : Nat) : Nat :=
  nowMs + 7 * msPerDay

/-- The bucket `functions/index.js` is bound to (lines 12-16). -/
def bucketName : String := "bestlogin-e1c74.firebasestorage.app"

/-- Watched prefix of the incoming-prompt worker (functions/index.js:19). -/
def INCOMING_PREFIX : String := "incoming/"

/-- Default destination folder (functions/index.js:18). -/
def DEFAULT_FOLDER : String := "generated"

/-- Result of `saveBufferToStorage`. -/
structure SaveOut where
  gsUri : String
  httpsUrl : String
deriving DecidableEq

/-- `saveBufferToStorage` (functions/index.js:61-69): write the blob and
return the storage-native `gs://` locator plus a signed read URL (`signUrl`
is the storage collaborator). -/
def saveBufferToStorage (signUrl : String → String) (destPath : String) : SaveOut :=
  { gsUri := "gs://" ++ bucketName ++ "/" ++ destPath, httpsUrl := signUrl destPath }

/-- `generateBufferFromPrompt` (functions/index.js:37-60): parse the size,
pick the square render size, call the API (response = optional `b64_json`
payload `apiB64`); throw `"Image generation failed: empty response"` when the
payload is absent; otherwise fit the image to `w`×`h` and return it
(the bytes themselves are irrelevant here, the target dimensions are kept). -/
def generateBufferFromPrompt (sizeStr : String) (apiB64 : Option String) :
    Except String (Nat × Nat) :=
  let wh := parseSize (if sizeStr = "" then "1024x1536" else sizeStr)
  match apiB64 with
  | none => .error "Image generation failed: empty response"
  | some _ => .ok wh

/-- A storage-finalize event's object (`event.data`): optional `name` and
`contentType`. -/
structure StorageObject where
  name : Option String := none
  contentType : Option String := none
deriving DecidableEq

/-- A parsed `incoming/{name}.json` payload (the JSON parser is an external
collaborator, so the worker receives its output; an absent key is `none`). -/
structure IncomingJson where
  prompt : Option String := none
  size : Option String := none
  folder : Option String := none
  filename : Option String := none
deriving DecidableEq

/-- The prompt/size/folder/filename the worker settles on before generating. -/
structure WorkerArgs where
  prompt : String
  size : String
  folder : String
  filename : String
deriving DecidableEq

/-- Observable side effects of one worker invocation.  The worker never
touches the record store, so there is no record-update effect to record. -/
inductive WorkerEffect where
  | download (name : String)
  | generate (prompt : String) (renderSize : String)
  | save (dest : String)
deriving DecidableEq

/-- Outcome of one worker invocation: the effects performed, and either the
value returned (`none` for the bare `return;`) or the error re-thrown to the
trigger platform. -/
structure WorkerRun where
  effects : List WorkerEffect
  outcome : Except String (Option SaveOut)

/-- `incomingPromptWorker` (functions/index.js:103-155).  Inputs: the event
object, the download result for the object (the bucket collaborator), the
JSON parse result (used only for `json` content types), the API payload, the
URL signer and `Date.now()`.  Outside the `incoming/` prefix it returns at
once with no effect.  Inside, the whole body runs in a try/catch whose catch
logs and **re-throws** (line 152), so every thrown error escapes as
`Except.error`. -/
def workerRun (ev : StorageObject) (download : Except String String)
    (parsedJson : Except String IncomingJson) (apiB64 : Option String)
    (signUrl : String → String) (nowMs : Nat) : WorkerRun :=
  let name := ev.name.getD ""
  let contentType := ev.contentType.getD "application/octet-stream"
  if !(jsStartsWith name INCOMING_PREFIX) then { effects := [], outcome := .ok none }
  else
    match download with
    | .error e => { effects := [.download name], outcome := .error e }
    | .ok text =>
      let defFilename :=
        stripExt (dropChars name INCOMING_PREFIX.length) ++ "_" ++ toString nowMs ++ ".png"
      let args : Except String WorkerArgs :=
        if jsIncludes contentType "json" then
          match parsedJson with
          | .error e => .error e
          | .ok j =>
            .ok { prompt := jsTrim (j.prompt.getD "")
                  size := if j.size.getD "" ≠ "" then j.size.getD "" else "1024x1536"
                  folder := if j.folder.getD "" ≠ "" then trimSlashes (j.folder.getD "")
                            else DEFAULT_FOLDER
                  filename := if j.filename.getD "" ≠ "" then j.filename.getD ""
                              else defFilename }
        else
          .ok { prompt := jsTrim text, size := "1024x1536", folder := DEFAULT_FOLDER,
                filename := defFilename }
      match args with
      | .error e => { effects := [.download name], outcome := .error e }
      | .ok a =>
        if a.prompt = "" then
          { effects := [.download name], outcome := .error "No prompt found in incoming file" }
        else
          let wh := parseSize (if a.size = "" then "1024x1536" else a.size)
          let renderSize := squareForModel wh.1 wh.2
          match apiB64 with
          | none =>
            { effects := [.download name, .generate a.prompt renderSize]
              outcome := .error "Image generation failed: empty response" }
          | some _ =>
            let dest := a.folder ++ "/" ++
              (if jsEndsWith a.filename ".png" then a.filename else a.filename ++ ".png")
            { effects := [.download name, .generate a.prompt renderSize, .save dest]
              outcome := .ok (some (saveBufferToStorage signUrl dest)) }

end FunctionsJs

/-! ### `unnamed/part_003` — the reconciliation pass `checkAndFix` -/

namespace Part003

/-- A `staging_products` document as read by `checkAndFix`; absent string
fields are `""`. -/
structure Doc where
  rawImageBucket : String := ""
  generatedImagePath : String := ""
  generatedImageUrl : String := ""
  photoStatus : String := ""
  processingCompletedAt : Option Nat := none
  updatedAt : Option Nat := none
deriving DecidableEq

/-- The structured result `checkAndFix` returns (part_003:45-98). -/
structure FixOut where
  ok : Bool
  reason : String
  photoStatus : String
  generatedImageUrl : String
  rawImageBucket : String
  generatedImagePath : String
deriving DecidableEq

/-- `data.rawImageBucket || storage.bucket().name` (part_003:42). -/
def bucketFor (defaultBucket : String) (doc : Doc) : String :=
  if doc.rawImageBucket ≠ "" then doc.rawImageBucket else defaultBucket

/-- `ensureSignedUrl` (part_003:16-28): existence check plus a fresh V4
signed URL; `blobExists` and `signUrl` are the storage collaborator. -/
def ensureSignedUrl (blobExists : String → String → Bool)
    (signUrl : String → String → String) (bucket path : String) : Bool × String :=
  if blobExists bucket path then (true, signUrl bucket path) else (false, "")

/-- `checkAndFix` (part_003:39-99).  Returns the structured result, the
document state after the pass, and the number of Firestore writes performed.
`now` stands for both `Timestamp.now()` and the server timestamp. -/
def checkAndFix (defaultBucket : String) (blobExists : String → String → Bool)
    (signUrl : String → String → String) (doc : Doc) (now : Nat) :
    FixOut × Doc × Nat :=
  let rawBucket := bucketFor defaultBucket doc
  let genPath := doc.generatedImagePath
  if genPath = "" then
    ({ ok := false, reason := "generatedImagePath_missing",
       photoStatus := doc.photoStatus, generatedImageUrl := doc.generatedImageUrl,
       rawImageBucket := rawBucket, generatedImagePath := genPath }, doc, 0)
  else
    let es := ensureSignedUrl blobExists signUrl rawBucket genPath
    if !es.1 then
      ({ ok := false, reason := "generated_file_not_found_in_bucket",
         photoStatus := doc.photoStatus, generatedImageUrl := doc.generatedImageUrl,
         rawImageBucket := rawBucket, generatedImagePath := genPath }, doc, 0)
    else
      let needsRefresh :=
        (doc.generatedImageUrl == "") || !(jsIncludes doc.generatedImageUrl "Signature=")
      let newUrl := if needsRefresh then es.2 else doc.generatedImageUrl
      let step1 : Doc × Nat :=
        if needsRefresh then
          ({ doc with
              generatedImageUrl := newUrl
              processingCompletedAt := some (doc.processingCompletedAt.getD now)
              updatedAt := some now }, 1)
        else (doc, 0)
      let step2 : Doc × Nat :=
        if doc.photoStatus ≠ "done" then
          ({ step1.1 with photoStatus := "done", updatedAt := some now }, 1)
        else (step1.1, 0)
      ({ ok := true, reason := "ok", photoStatus := "done",
         generatedImageUrl := newUrl, rawImageBucket := rawBucket,
         generatedImagePath := genPath }, step2.1, step1.2 + step2.2)

end Part003

/-! ### Helper lemmas -/

/-- Appending to a non-empty string on the left never yields the empty
string. -/
theorem str_append_ne_empty_left (a b : String) (h : a ≠ "") : a ++ b ≠ "" := by
  intro hab
  apply h
  have hd : a.data ++ b.data = [] := by
    have := congrArg String.data hab
    simpa [String.data_append] using this
  rcases List.append_eq_nil.mp hd with ⟨ha, _⟩
  cases a with
  | mk la => cases ha; rfl

/-- A document whose status is not the queued sentinel never wins a claim
attempt and is never written by one. -/
theorem runClaims_notQueued (doc : IndexJs.Doc) (ts : List Nat)
    (h : doc.photoStatus ≠ "queued") :
    ((IndexJs.runClaims doc ts).1.count true) = 0
    ∧ (IndexJs.runClaims doc ts).2 = doc := by
  induction ts generalizing doc with
  | nil => simp [IndexJs.runClaims]
  | cons t ts ih =>
    have hc : IndexJs.tryClaim doc t = (false, doc) := by
      simp [IndexJs.tryClaim, h]
    rcases ih doc h with ⟨h1, h2⟩
    simp [IndexJs.runClaims, hc, List.count_cons, h1, h2]

/-! ### C1 — the transactional claim guard -/

/-- C1: `tryClaim` returns true iff the status it reads inside the
transaction is the queued sentinel; when it returns true the record's status
becomes `"processing"` and `processingStartedAt` is stamped; when it returns
false the record is untouched; and among any positive number of duplicate
claim attempts on one queued record (serialized by the transactional store)
exactly one attempt returns true. -/
theorem tryClaim_exactly_one_winner (doc : IndexJs.Doc) (t : Nat) :
    ((IndexJs.tryClaim doc t).1 = true ↔ doc.photoStatus = "queued")
    ∧ ((IndexJs.tryClaim doc t).1 = true →
        (IndexJs.tryClaim doc t).2.photoStatus = "processing"
        ∧ (IndexJs.tryClaim doc t).2.processingStartedAt = some t)
    ∧ ((IndexJs.tryClaim doc t).1 = false → (IndexJs.tryClaim doc t).2 = doc)
    ∧ (∀ ts : List Nat, doc.photoStatus = "queued" → ts ≠ [] →
        ((IndexJs.runClaims doc ts).1.count true) = 1) := by
  refine ⟨?_, ?_, ?_, ?_⟩
  · by_cases h : doc.photoStatus = "queued" <;> simp [IndexJs.tryClaim, h]
  · by_cases h : doc.photoStatus = "queued" <;> simp [IndexJs.tryClaim, h]
  · by_cases h : doc.photoStatus = "queued" <;> simp [IndexJs.tryClaim, h]
  · intro ts hq hne
    cases ts with
    | nil => exact absurd rfl hne
    | cons t' ts' =>
      have hc : IndexJs.tryClaim doc t' =
          (true, { doc with photoStatus := "processing",
                            processingStartedAt := some t' }) := by
        simp [IndexJs.tryClaim, hq]
      have hrest := runClaims_notQueued
        { doc with photoStatus := "processing", processingStartedAt := some t' }
        ts' (by simp)
      simp [IndexJs.runClaims, hc, List.count_cons, hrest.1]

/-- Concrete queued document for the C1 witness. -/
def queuedDocC1 : IndexJs.Doc := { photoStatus := "queued", title := "white t-shirt" }

/-- Witness for C1: three duplicate claim attempts on a concrete queued
record produce exactly one winner. -/
theorem tryClaim_exactly_one_winner_witness :
    queuedDocC1.photoStatus = "queued"
    ∧ ((IndexJs.runClaims queuedDocC1 [1, 2, 3]).1.count true) = 1 :=
  ⟨rfl, (tryClaim_exactly_one_winner queuedDocC1 1).2.2.2 [1, 2, 3] rfl (by decide)⟩

/-! ### C2 — the completion writer -/

/-- Concrete document carrying a previous failure, for the C2 counterexample. -/
def preErrorDocC2 : IndexJs.Doc :=
  { photoStatus := "processing", errorMessage := "previous failure", errorCount := 2 }

/-- C2 counterexample: the completion update of `autoGenerateImage`
(index.js:105-110) does **not** clear the record's error field — on a record
carrying `errorMessage = "previous failure"` and `errorCount = 2`, the
completed record still carries both, so "sets status to done and clears the
record's error field" and "a fresh successful completion ... resets
errorCount" are false of this code. -/
theorem completeUpdate_keeps_error_counterexample :
    (IndexJs.completeUpdate preErrorDocC2 "https://u" "generated/a.png" 7).errorMessage
        = "previous failure"
    ∧ ¬ ((IndexJs.completeUpdate preErrorDocC2 "https://u" "generated/a.png" 7).errorMessage
        = "")
    ∧ (IndexJs.completeUpdate preErrorDocC2 "https://u" "generated/a.png" 7).errorCount = 2 :=
  ⟨rfl, by decide, rfl⟩

/-- C2 amended: the completion writer sets status `"done"`, stamps
`processingCompletedAt`, and is idempotent (applying it twice with identical
arguments equals applying it once), but it leaves the error field and
`errorCount` unchanged; `errorCount` is never reset by any writer — the
failure writer increments it and the claim and completion writers preserve
it. -/
theorem completeUpdate_amended (doc : IndexJs.Doc) (url path msg : String) (t : Nat) :
    (IndexJs.completeUpdate doc url path t).photoStatus = "done"
    ∧ (IndexJs.completeUpdate doc url path t).processingCompletedAt = some t
    ∧ IndexJs.completeUpdate (IndexJs.completeUpdate doc url path t) url path t
        = IndexJs.completeUpdate doc url path t
    ∧ (IndexJs.completeUpdate doc url path t).errorMessage = doc.errorMessage
    ∧ (IndexJs.completeUpdate doc url path t).errorCount = doc.errorCount
    ∧ (IndexJs.tryClaim doc t).2.errorCount = doc.errorCount
    ∧ (IndexJs.failUpdate doc msg t).errorCount = doc.errorCount + 1 := by
  refine ⟨rfl, rfl, rfl, rfl, rfl, ?_, rfl⟩
  by_cases h : doc.photoStatus = "queued" <;> simp [IndexJs.tryClaim, h]

/-! ### C3 — failure bookkeeping when the API returns no payload -/

/-- C3: when the generation API returns no image payload during a triggered
job on a queued record, the handler catches the thrown error and the failure
writer leaves the record with status `"error"`, a non-empty error message,
`errorCount` incremented by one (so 1 on a first failure), a stamped error
timestamp, and the output path untouched; the handler — and in particular the
failure writer — propagates no error (`Except.ok`). -/
theorem autoGenerate_noPayload_failure (signUrl : String → String)
    (doc : IndexJs.Doc) (docId : String) (t1 t2 : Nat)
    (hq : doc.photoStatus = "queued") :
    ∃ d, IndexJs.autoGenerateImage signUrl none doc docId t1 t2 = .ok d
      ∧ d.photoStatus = "error"
      ∧ d.errorMessage ≠ ""
      ∧ d.errorCount = doc.errorCount + 1
      ∧ (doc.errorCount = 0 → d.errorCount = 1)
      ∧ d.lastErrorAt = some t2
      ∧ d.generatedImagePath = doc.generatedImagePath := by
  have hc : IndexJs.tryClaim doc t1 =
      (true, { doc with photoStatus := "processing",
                        processingStartedAt := some t1 }) := by
    simp [IndexJs.tryClaim, hq]
  refine ⟨IndexJs.failUpdate
      { doc with photoStatus := "processing", processingStartedAt := some t1 }
      IndexJs.noPayloadErrorMsg t2, ?_, rfl,
      (by decide : IndexJs.noPayloadErrorMsg ≠ ""), rfl, ?_, rfl, rfl⟩
  · simp [IndexJs.autoGenerateImage, hc, IndexJs.generateAndStoreE]
  · intro h
    simp [IndexJs.failUpdate, h]

/-- Concrete queued document with no prior failures, for the C3 witness. -/
def queuedDocC3 : IndexJs.Doc := { photoStatus := "queued", title := "white t-shirt" }

/-- Witness for C3 at a concrete queued record with `errorCount = 0`. -/
theorem autoGenerate_noPayload_failure_witness :
    queuedDocC3.photoStatus = "queued"
    ∧ ∃ d, IndexJs.autoGenerateImage (fun _ => "") none queuedDocC3 "doc1" 1 2 = .ok d
        ∧ d.photoStatus = "error"
        ∧ d.errorMessage ≠ ""
        ∧ d.errorCount = queuedDocC3.errorCount + 1
        ∧ (queuedDocC3.errorCount = 0 → d.errorCount = 1)
        ∧ d.lastErrorAt = some 2
        ∧ d.generatedImagePath = queuedDocC3.generatedImagePath :=
  ⟨rfl, autoGenerate_noPayload_failure (fun _ => "") queuedDocC3 "doc1" 1 2 rfl⟩

/-! ### C4 — reconcile is a no-op on a consistent record -/

/-- C4: on a record that is already consistent — output path present, the
stored artifact exists in the resolved bucket, the stored URL carries the V4
signature marker, and status is `"done"` — `checkAndFix` performs zero
Firestore writes, leaves the record exactly as it was, and returns ok, so
calling it repeatedly changes nothing. -/
theorem checkAndFix_consistent_noop (defaultBucket : String)
    (blobExists : String → String → Bool) (signUrl : String → String → String)
    (doc : Part003.Doc) (now : Nat)
    (hpath : doc.generatedImagePath ≠ "")
    (hex : blobExists (Part003.bucketFor defaultBucket doc) doc.generatedImagePath = true)
    (hsig : jsIncludes doc.generatedImageUrl "Signature=" = true)
    (hdone : doc.photoStatus = "done") :
    (Part003.checkAndFix defaultBucket blobExists signUrl doc now).1.ok = true
    ∧ (Part003.checkAndFix defaultBucket blobExists signUrl doc now).1.reason = "ok"
    ∧ (Part003.checkAndFix defaultBucket blobExists signUrl doc now).1.generatedImageUrl
        = doc.generatedImageUrl
    ∧ (Part003.checkAndFix defaultBucket blobExists signUrl doc now).2.1 = doc
    ∧ (Part003.checkAndFix defaultBucket blobExists signUrl doc now).2.2 = 0 := by
  have hu : doc.generatedImageUrl ≠ "" := by
    intro he
    rw [he] at hsig
    exact absurd hsig (by decide)
  simp [Part003.checkAndFix, Part003.ensureSignedUrl, hpath, hex, hsig, hu, hdone]

/-- Concrete consistent record for the C4 witness. -/
def consistentDocC4 : Part003.Doc :=
  { rawImageBucket := "", generatedImagePath := "generated/a.png",
    generatedImageUrl := "https://storage.example/a.png?X-Goog-Signature=abc",
    photoStatus := "done" }

/-- Witness for C4 on a concrete consistent record with concrete storage
collaborators. -/
theorem checkAndFix_consistent_noop_witness :
    consistentDocC4.generatedImagePath ≠ ""
    ∧ jsIncludes consistentDocC4.generatedImageUrl "Signature=" = true
    ∧ consistentDocC4.photoStatus = "done"
    ∧ ((Part003.checkAndFix "bkt" (fun _ _ => true) (fun _ _ => "fresh")
          consistentDocC4 9).1.ok = true
      ∧ (Part003.checkAndFix "bkt" (fun _ _ => true) (fun _ _ => "fresh")
          consistentDocC4 9).1.reason = "ok"
      ∧ (Part003.checkAndFix "bkt" (fun _ _ => true) (fun _ _ => "fresh")
          consistentDocC4 9).1.generatedImageUrl = consistentDocC4.generatedImageUrl
      ∧ (Part003.checkAndFix "bkt" (fun _ _ => true) (fun _ _ => "fresh")
          consistentDocC4 9).2.1 = consistentDocC4
      ∧ (Part003.checkAndFix "bkt" (fun _ _ => true) (fun _ _ => "fresh")
          consistentDocC4 9).2.2 = 0) :=
  ⟨by decide, by decide, rfl,
    checkAndFix_consistent_noop "bkt" (fun _ _ => true) (fun _ _ => "fresh")
      consistentDocC4 9 (by decide) rfl (by decide) rfl⟩

/-! ### C5 — reconcile surfaces a missing artifact without writing -/

/-- C5: on a `"done"` record that has an output path but whose stored
artifact no longer exists in the resolved bucket, `checkAndFix` returns a
not-ok result whose reason is the artifact-missing reason
(`"generated_file_not_found_in_bucket"` — the spec labels this reason
"artifact missing") and leaves the record unchanged with zero writes: no
status change and no URL write. -/
theorem checkAndFix_artifact_missing (defaultBucket : String)
    (blobExists : String → String → Bool) (signUrl : String → String → String)
    (doc : Part003.Doc) (now : Nat)
    (hpath : doc.generatedImagePath ≠ "")
    (hmiss : blobExists (Part003.bucketFor defaultBucket doc) doc.generatedImagePath = false)
    (hdone : doc.photoStatus = "done") :
    (Part003.checkAndFix defaultBucket blobExists signUrl doc now).1.ok = false
    ∧ (Part003.checkAndFix defaultBucket blobExists signUrl doc now).1.reason
        = "generated_file_not_found_in_bucket"
    ∧ (Part003.checkAndFix defaultBucket blobExists signUrl doc now).1.photoStatus
        = doc.photoStatus
    ∧ (Part003.checkAndFix defaultBucket blobExists signUrl doc now).2.1 = doc
    ∧ (Part003.checkAndFix defaultBucket blobExists signUrl doc now).2.2 = 0 := by
  simp [Part003.checkAndFix, Part003.ensureSignedUrl, hpath, hmiss]

/-- Concrete `"done"` record whose artifact was externally deleted, for the
C5 witness. -/
def orphanedDocC5 : Part003.Doc :=
  { rawImageBucket := "mybucket", generatedImagePath := "generated/b.png",
    generatedImageUrl := "https://storage.example/b.png?X-Goog-Signature=abc",
    photoStatus := "done" }

/-- Witness for C5 with a storage collaborator reporting the blob absent. -/
theorem checkAndFix_artifact_missing_witness :
    orphanedDocC5.generatedImagePath ≠ ""
    ∧ orphanedDocC5.photoStatus = "done"
    ∧ ((Part003.checkAndFix "bkt" (fun _ _ => false) (fun _ _ => "fresh")
          orphanedDocC5 9).1.ok = false
      ∧ (Part003.checkAndFix "bkt" (fun _ _ => false) (fun _ _ => "fresh")
          orphanedDocC5 9).1.reason = "generated_file_not_found_in_bucket"
      ∧ (Part003.checkAndFix "bkt" (fun _ _ => false) (fun _ _ => "fresh")
          orphanedDocC5 9).1.photoStatus = orphanedDocC5.photoStatus
      ∧ (Part003.checkAndFix "bkt" (fun _ _ => false) (fun _ _ => "fresh")
          orphanedDocC5 9).2.1 = orphanedDocC5
      ∧ (Part003.checkAndFix "bkt" (fun _ _ => false) (fun _ _ => "fresh")
          orphanedDocC5 9).2.2 = 0) :=
  ⟨by decide, rfl,
    checkAndFix_artifact_missing "bkt" (fun _ _ => false) (fun _ _ => "fresh")
      orphanedDocC5 9 (by decide) rfl rfl⟩

/-! ### C6 — prompt resolution precedence and non-emptiness -/

/-- C6: `buildPrompt` returns the explicit override verbatim after trimming
whenever the trimmed override is non-empty; otherwise, when the trimmed title
is non-empty, the fixed style template built from the title; otherwise the
hard-coded generic fallback — and for every input the result is non-empty. -/
theorem buildPrompt_precedence (base : IndexJs.PromptInput) :
    (jsTrim base.prompt ≠ "" → IndexJs.buildPrompt base = jsTrim base.prompt)
    ∧ (jsTrim base.prompt = "" → jsTrim base.title ≠ "" →
        IndexJs.buildPrompt base =
          "Studio-grade product photo of " ++ jsTrim base.title ++
            ", seamless white background, soft shadow, no clutter, no watermark")
    ∧ (jsTrim base.prompt = "" → jsTrim base.title = "" →
        IndexJs.buildPrompt base =
          "Studio-grade product photo of a plain item, seamless white background, soft shadow, no clutter, no watermark")
    ∧ IndexJs.buildPrompt base ≠ "" := by
  refine ⟨?_, ?_, ?_, ?_⟩
  · intro hc
    simp [IndexJs.buildPrompt, hc]
  · intro hc ht
    simp [IndexJs.buildPrompt, hc, ht]
  · intro hc ht
    simp [IndexJs.buildPrompt, hc, ht]
  · by_cases hc : jsTrim base.prompt = ""
    · by_cases ht : jsTrim base.title = ""
      · simp only [IndexJs.buildPrompt, hc, ht]
        decide
      · have heq : IndexJs.buildPrompt base =
            "Studio-grade product photo of " ++ jsTrim base.title ++
              ", seamless white background, soft shadow, no clutter, no watermark" := by
          simp [IndexJs.buildPrompt, hc, ht]
        rw [heq]
        exact str_append_ne_empty_left _ _ (str_append_ne_empty_left _ _ (by decide))
    · simp [IndexJs.buildPrompt, hc]

/-- Witness for C6: a concrete input whose override trims to a non-empty
string is returned verbatim after trimming, and the result is non-empty. -/
theorem buildPrompt_precedence_witness :
    jsTrim (IndexJs.PromptInput.mk "ignored title" "  red sneaker  ").prompt ≠ ""
    ∧ IndexJs.buildPrompt (IndexJs.PromptInput.mk "ignored title" "  red sneaker  ")
        = jsTrim (IndexJs.PromptInput.mk "ignored title" "  red sneaker  ").prompt
    ∧ IndexJs.buildPrompt (IndexJs.PromptInput.mk "ignored title" "  red sneaker  ") ≠ "" :=
  ⟨by decide,
    (buildPrompt_precedence (IndexJs.PromptInput.mk "ignored title" "  red sneaker  ")).1
      (by decide),
    (buildPrompt_precedence (IndexJs.PromptInput.mk "ignored title" "  red sneaker  ")).2.2.2⟩

/-! ### C7 — the requested render size is the closest supported square -/

/-- On the low range the reduce of `squareForModel` picks 1024. -/
theorem closestTo_low (s : Nat) (hs : s ≤ 1280) : FunctionsJs.closestTo s = 1024 := by
  simp only [FunctionsJs.closestTo, FunctionsJs.allowedSides, List.tail_cons,
    List.headD_cons, List.foldl_cons, List.foldl_nil, jsAbsSub]
  split_ifs <;> omega

/-- On the middle range the reduce of `squareForModel` picks 1536. -/
theorem closestTo_mid (s : Nat) (h1 : 1280 < s) (h2 : s ≤ 1792) :
    FunctionsJs.closestTo s = 1536 := by
  simp only [FunctionsJs.closestTo, FunctionsJs.allowedSides, List.tail_cons,
    List.headD_cons, List.foldl_cons, List.foldl_nil, jsAbsSub]
  split_ifs <;> omega

/-- On the high range the reduce of `squareForModel` picks 2048. -/
theorem closestTo_high (s : Nat) (h1 : 1792 < s) : FunctionsJs.closestTo s = 2048 := by
  simp only [FunctionsJs.closestTo, FunctionsJs.allowedSides, List.tail_cons,
    List.headD_cons, List.foldl_cons, List.foldl_nil, jsAbsSub]
  split_ifs <;> omega

/-- C7: for every requested width and height, the square side the client
requests from the generation model is a member of the fixed enumerated set of
supported sides and is closest (in absolute distance) to the larger of the
two requested dimensions. -/
theorem squareForModel_closest (w h : Nat) :
    FunctionsJs.squareSide w h ∈ FunctionsJs.allowedSides
    ∧ jsAbsSub (FunctionsJs.squareSide w h) (max w h) ≤ jsAbsSub 1024 (max w h)
    ∧ jsAbsSub (FunctionsJs.squareSide w h) (max w h) ≤ jsAbsSub 1536 (max w h)
    ∧ jsAbsSub (FunctionsJs.squareSide w h) (max w h) ≤ jsAbsSub 2048 (max w h) := by
  by_cases h1 : max (max w h) 1024 ≤ 1280
  · rw [FunctionsJs.squareSide, closestTo_low _ h1]
    refine ⟨by simp [FunctionsJs.allowedSides], ?_, ?_, ?_⟩ <;>
      simp only [jsAbsSub] <;> split_ifs <;> omega
  · by_cases h2 : max (max w h) 1024 ≤ 1792
    · rw [FunctionsJs.squareSide, closestTo_mid _ (by omega) h2]
      refine ⟨by simp [FunctionsJs.allowedSides], ?_, ?_, ?_⟩ <;>
        simp only [jsAbsSub] <;> split_ifs <;> omega
    · rw [FunctionsJs.squareSide, closestTo_high _ (by omega)]
      refine ⟨by simp [FunctionsJs.allowedSides], ?_, ?_, ?_⟩ <;>
        simp only [jsAbsSub] <;> split_ifs <;> omega

/-! ### C8 — error propagation at the handler boundaries -/

/-- Concrete storage-finalize event for the C8 counterexample: a text prompt
file under the watched prefix. -/
def promptEventC8 : FunctionsJs.StorageObject :=
  { name := some "incoming/cat.txt", contentType := some "text/plain" }

/-- C8 counterexample: `incomingPromptWorker` is a trigger-driven (storage
finalize) handler, yet when generation fails mid-job on a concrete event under
its watched prefix it re-throws the error to the trigger platform
(functions/index.js:150-153) instead of swallowing it, and it records nothing
on any job record — so "every generation or storage error inside a
trigger-driven handler ... is not re-thrown" is false of this code. -/
theorem incomingWorker_rethrows_counterexample :
    jsStartsWith (promptEventC8.name.getD "") FunctionsJs.INCOMING_PREFIX = true
    ∧ (FunctionsJs.workerRun promptEventC8 (.ok "a cat on a chair") (.ok {}) none
        (fun _ => "") 0).outcome
        = Except.error "Image generation failed: empty response" :=
  ⟨by decide, rfl⟩

/-- C8 amended: generation errors in the Firestore-triggered handler
(`autoGenerateImage`), which owns a job record, are caught at the handler
boundary, recorded as a terminal `"error"` status with message and
incremented counter, and not re-thrown; the storage-triggered
`incomingPromptWorker`, which has no job record, logs and re-throws to the
trigger platform; and the manual callable path (`generateProductImage` in
index.js) propagates the error to its caller. -/
theorem errorPropagation_amended (signUrl : String → String)
    (doc : IndexJs.Doc) (docId : String) (t1 t2 : Nat)
    (hq : doc.photoStatus = "queued")
    (ev : FunctionsJs.StorageObject) (text : String)
    (pj : Except String FunctionsJs.IncomingJson) (su2 : String → String) (nowMs : Nat)
    (hname : jsStartsWith (ev.name.getD "") FunctionsJs.INCOMING_PREFIX = true)
    (hct : jsIncludes (ev.contentType.getD "application/octet-stream") "json" = false)
    (htext : jsTrim text ≠ "")
    (req : IndexJs.PromptInput) (nowMs2 : Nat) :
    (∃ d, IndexJs.autoGenerateImage signUrl none doc docId t1 t2 = .ok d
        ∧ d.photoStatus = "error"
        ∧ d.errorMessage ≠ ""
        ∧ d.errorCount = doc.errorCount + 1)
    ∧ (FunctionsJs.workerRun ev (.ok text) pj none su2 nowMs).outcome
        = .error "Image generation failed: empty response"
    ∧ IndexJs.generateProductImage signUrl none req nowMs2
        = .error IndexJs.noPayloadErrorMsg := by
  refine ⟨?_, ?_, ?_⟩
  · have hc : IndexJs.tryClaim doc t1 =
        (true, { doc with photoStatus := "processing",
                          processingStartedAt := some t1 }) := by
      simp [IndexJs.tryClaim, hq]
    exact ⟨IndexJs.failUpdate
        { doc with photoStatus := "processing", processingStartedAt := some t1 }
        IndexJs.noPayloadErrorMsg t2,
      by simp [IndexJs.autoGenerateImage, hc, IndexJs.generateAndStoreE],
      rfl, (by decide : IndexJs.noPayloadErrorMsg ≠ ""), rfl⟩
  · simp [FunctionsJs.workerRun, hname, hct, htext]
  · simp [IndexJs.generateProductImage, IndexJs.generateAndStoreE]

/-- Concrete queued document for the C8 witness. -/
def queuedDocC8 : IndexJs.Doc := { photoStatus := "queued", errorCount := 3 }

/-- Witness for C8 amended, instantiated at concrete documents, events and
collaborators. -/
theorem errorPropagation_amended_witness :
    queuedDocC8.photoStatus = "queued"
    ∧ jsStartsWith (promptEventC8.name.getD "") FunctionsJs.INCOMING_PREFIX = true
    ∧ jsIncludes (promptEventC8.contentType.getD "application/octet-stream") "json" = false
    ∧ jsTrim "a cat on a chair" ≠ ""
    ∧ ((∃ d, IndexJs.autoGenerateImage (fun _ => "") none queuedDocC8 "doc8" 1 2 = .ok d
          ∧ d.photoStatus = "error"
          ∧ d.errorMessage ≠ ""
          ∧ d.errorCount = queuedDocC8.errorCount + 1)
      ∧ (FunctionsJs.workerRun promptEventC8 (.ok "a cat on a chair") (.ok {}) none
          (fun _ => "") 0).outcome
          = .error "Image generation failed: empty response"
      ∧ IndexJs.generateProductImage (fun _ => "") none
          (IndexJs.PromptInput.mk "" "a prompt") 5
          = .error IndexJs.noPayloadErrorMsg) :=
  ⟨rfl, by decide, by decide, by decide,
    errorPropagation_amended (fun _ => "") queuedDocC8 "doc8" 1 2 rfl
      promptEventC8 "a cat on a chair" (.ok {}) (fun _ => "") 0
      (by decide) (by decide) (by decide)
      (IndexJs.PromptInput.mk "" "a prompt") 5⟩

/-! ### C9 — signed-URL expiry of the puts -/

/-- C9 counterexample: the signed URL issued by `saveBufferToStorage`
(functions/index.js:64-67) expires exactly 7 days after issuance, which is
less than a year — so "every blob written by the put operation gets a URL
whose expiry is on the order of years" is false of this code. -/
theorem saveSignedUrl_expiry_counterexample :
    FunctionsJs.saveSignedUrlExpires 0 - 0 = 7 * FunctionsJs.msPerDay
    ∧ FunctionsJs.saveSignedUrlExpires 0 - 0 < FunctionsJs.msPerYear :=
  ⟨by decide, by decide⟩

/-- C9 amended: the two put paths differ — `generateAndStore` in index.js
signs URLs with the fixed far-future expiry date year 2099, while
`saveBufferToStorage` in functions/index.js signs URLs expiring 7 days after
issuance, which is under a year. -/
theorem put_expiry_amended (nowMs : Nat) :
    FunctionsJs.saveSignedUrlExpires nowMs - nowMs = 7 * FunctionsJs.msPerDay
    ∧ 7 * FunctionsJs.msPerDay < FunctionsJs.msPerYear
    ∧ digitsToNat (IndexJs.generateAndStoreExpires.toList.takeWhile Char.isDigit) = 2099
    ∧ 2026 < 2099 := by
  refine ⟨?_, by decide, by decide, by decide⟩
  simp only [FunctionsJs.saveSignedUrlExpires]
  omega

/-! ### C10 — the worker is a no-op outside its watched prefix -/

/-- C10: on every storage-finalize event whose object name does not start
with the `incoming/` prefix, the worker returns at once with no download, no
generation call, no blob write (and it never touches the record store), and a
bare return value. -/
theorem worker_outside_prefix_noop (ev : FunctionsJs.StorageObject)
    (download : Except String String) (pj : Except String FunctionsJs.IncomingJson)
    (apiB64 : Option String) (signUrl : String → String) (nowMs : Nat)
    (h : jsStartsWith (ev.name.getD "") FunctionsJs.INCOMING_PREFIX = false) :
    (FunctionsJs.workerRun ev download pj apiB64 signUrl nowMs).effects = []
    ∧ (FunctionsJs.workerRun ev download pj apiB64 signUrl nowMs).outcome = .ok none := by
  simp [FunctionsJs.workerRun, h]

/-- Concrete out-of-prefix event for the C10 witness. -/
def outsideEventC10 : FunctionsJs.StorageObject :=
  { name := some "uploads/photo.png", contentType := some "image/png" }

/-- Witness for C10 at a concrete event outside the watched prefix. -/
theorem worker_outside_prefix_noop_witness :
    jsStartsWith (outsideEventC10.name.getD "") FunctionsJs.INCOMING_PREFIX = false
    ∧ ((FunctionsJs.workerRun outsideEventC10 (.ok "body") (.ok {}) (some "b64")
        (fun _ => "") 4).effects = []
      ∧ (FunctionsJs.workerRun outsideEventC10 (.ok "body") (.ok {}) (some "b64")
        (fun _ => "") 4).outcome = .ok none) :=
  ⟨by decide,
    worker_outside_prefix_noop outsideEventC10 (.ok "body") (.ok {}) (some "b64")
      (fun _ => "") 4 (by decide)⟩

end ExzetFunctions
